import Mathlib

/-!
A shallow embedding of the EuphieRR/ArcNCiel feed-match-schedule-download
pipeline (Python sources under `src/`), together with theorems settling the
frozen claims about it.

Embedding conventions:
* Python `int` is modelled as `Int`; Python `%` and `//` on a positive divisor
  agree with Lean's `Int.emod` / `Int.ediv` (both yield a non-negative
  remainder), so `%` and `/` on `Int` are used directly.
* Regular-expression search (`re.Pattern.search` plus `groupdict()`) is
  abstracted as a function `String → Option MatchGroups` carried on the rule:
  `none` models "no match", `some g` models a match whose named captures
  `episode` / `season` are `Option String` (a group that did not participate
  is `None` in Python, `none` here).
* `str.casefold()` is modelled by `String.toLower`, and Python's `in` on
  strings by a list-infix test on the character lists.
* Blocking I/O (HTTP fetch, torrent parsing, the qBittorrent add/list calls,
  the filesystem move) is modelled by passing the observed outcome of each
  call as an explicit argument, so every function stays executable.
* Wall-clock instants are modelled as seconds on a linear timeline whose day 0
  has Python weekday 0, so `weekday t = (t / 86400) % 7` and
  `pendulum.datetime(..., month=cur.month, day=cur.day, hour, minute, second)`
  becomes "start of `cur`'s day plus the airtime's time of day".
* `euphierr/models.py` and `euphierr/management.py` are not present under
  `src/`; the few pieces of them the claims need are modelled from the spec
  and marked as such in their doc comments.
-/

deriving instance DecidableEq for Except

namespace EuphieRR

/-! ## Python-level helpers -/

/-- Python `str.casefold()`, modelled as ASCII lowercasing. -/
def pyCasefold (s : String) : String := s.toLower

/-- Python `needle in haystack` on strings: substring containment. -/
def strContains (needle haystack : String) : Bool :=
  decide (needle.toList <:+: haystack.toList)

/-- Python `a or b` on two integers: `b` exactly when `a` is falsy (zero). -/
def pyIntOr (a b : Int) : Int := if a = 0 then b else a

/-- Digit accumulator for `pyParseInt`, structurally recursive on the
character list (so that it reduces definitionally, unlike `String.toInt?`). -/
def parseNatAux : List Char → Nat → Option Nat
  | [], acc => some acc
  | c :: rest, acc =>
    if c.isDigit then parseNatAux rest (acc * 10 + (c.toNat - 48)) else none

/-- Python `int(s)` on a string: an optional minus sign followed by at least
one decimal digit; anything else raises (`none`). -/
def pyParseInt (s : String) : Option Int :=
  match s.toList with
  | [] => none
  | '-' :: rest =>
    if rest.isEmpty then none else (parseNatAux rest 0).map fun n => -(n : Int)
  | cs => (parseNatAux cs 0).map fun n => (n : Int)

/-- Python `int(s)` on an optional capture: `none` models the raised
`TypeError` (capture is `None`) or `ValueError` (non-numeric literal). -/
def pyInt (s : Option String) : Option Int := s.bind pyParseInt

/-- `pathlib.Path.suffix`: the final extension of a path, keeping the dot. -/
def path_suffix (p : String) : String :=
  match (p.splitOn ".").reverse with
  | [] => ""
  | [_] => ""
  | ext :: _ :: _ => "." ++ ext

/-! ## Data model -/

/-- Result of `series.episode_regex.search(title).groupdict()`: the named
captures used by the matcher. A capture that is absent or did not participate
is `none`. -/
structure MatchGroups where
  episode : Option String
  season : Option String
deriving Repr, DecidableEq

/-- The `series.airtime` value (`datetime` or `date`), reduced to the fields
`should_check` reads: its Python weekday (`Monday = 0`), whether it is a
`datetime` (only then are hour/minute/second used), and its time fields. -/
structure AirtimeSpec where
  isDatetime : Bool
  weekday : Int
  hour : Int
  minute : Int
  second : Int
deriving Repr, DecidableEq

/-- `SeriesSeason` (from the absent `euphierr/models.py`), restricted to the
fields the pipeline under `src/` reads. `episode_regex` abstracts the compiled
pattern as its search function. `start_from` is the minimum-episode floor.
The Python fields `matches` / `ignore_matches` are carried here under the
names `process_series` binds them to (`matchers` / `ignore_matchers`), since
`matches` is reserved syntax in Lean. -/
structure SeriesSeason where
  id : String
  episode_regex : String → Option MatchGroups
  matchers : List String
  ignore_matchers : List String
  season : Int
  start_from : Int
  airtime : Option AirtimeSpec
  grace_period : Int

/-- One RSS feed entry as `process_series` reads it. -/
structure FeedEntry where
  title : String
  link : String
  nyaa_infohash : Option String
deriving Repr, DecidableEq

/-- `ArcNCielTorrent` as constructed by `process_series` (the series back
reference is kept as its id so the structure stays decidable). -/
structure ArcNCielTorrent where
  name : String
  url : String
  hash : Option String
  seriesId : String
  episode : Int
  season : Int
deriving Repr, DecidableEq

/-- Modelled from the spec: the per-episode ledger record built by
`ArcNCielTorrent.to_data_content` in the absent `euphierr/models.py` — "commits
every successful job's (season, episode) to the Dedup Ledger"; it carries the
episode identity plus the artifact suffix. -/
structure DataContent where
  season : Int
  episode : Int
  suffix : String
deriving Repr, DecidableEq

/-- Modelled from the spec: `torrent.to_data_content(suffix)` of the absent
`euphierr/models.py`, the record appended to a series' ledger contents. -/
def ArcNCielTorrent.to_data_content (t : ArcNCielTorrent) (suffix : String) : DataContent :=
  { season := t.season, episode := t.episode, suffix := suffix }

/-! ## Matcher (`euphierr/feeds.py`, `process_series`) -/

/-- The ignore loop of `process_series`: some exclusion substring occurs in the
title, case-insensitively (the Python loop breaks at the first hit). -/
def has_ignore_match (s : SeriesSeason) (title : String) : Bool :=
  s.ignore_matchers.any fun m => strContains (pyCasefold m) (pyCasefold title)

/-- The inclusion loop of `process_series`: some required substring is absent
from the title, case-insensitively (the Python loop flags `matching_fail`). -/
def missing_required_match (s : SeriesSeason) (title : String) : Bool :=
  s.matchers.any fun m => !strContains (pyCasefold m) (pyCasefold title)

/-- Season resolution of `process_series` (lines 95–97 plus the `int(season)`
at construction): the `season` capture if present, else the stringified series
default, coerced to an integer (`none` models the `ValueError` raise). -/
def resolve_season (s : SeriesSeason) (groups : MatchGroups) : Option Int :=
  pyParseInt
    (match groups.season with
      | none => toString s.season
      | some sv => sv)

/-- Outcome of the per-entry body of `process_series`: the entry is skipped
(`continue`), yields a candidate, or raises (uncaught `ValueError`/`TypeError`
from `int(...)`). -/
inductive EntryOutcome
  | skipped
  | matched (t : ArcNCielTorrent)
  | errored (msg : String)
deriving Repr, DecidableEq

/-- The loop body of `process_series` for one feed entry, in source order:
pattern search, exclusion loop, inclusion loop, `int(episode)` coercion,
season resolution, torrent construction. -/
def process_entry (s : SeriesSeason) (e : FeedEntry) : EntryOutcome :=
  match s.episode_regex e.title with
  | none => .skipped
  | some groups =>
    if has_ignore_match s e.title then .skipped
    else if missing_required_match s e.title then .skipped
    else
      match pyInt groups.episode with
      | none => .errored ("invalid episode literal: " ++ e.title)
      | some ep =>
        match resolve_season s groups with
        | none => .errored ("invalid season literal: " ++ e.title)
        | some sn =>
          .matched { name := e.title, url := e.link, hash := e.nyaa_infohash,
                     seriesId := s.id, episode := ep, season := sn }

/-- `process_series` over the fetched entries: accumulates matches in feed
order; an `errored` entry propagates as an exception out of the whole step. -/
def process_series (s : SeriesSeason) : List FeedEntry → Except String (List ArcNCielTorrent)
  | [] => .ok []
  | e :: rest =>
    match process_entry s e with
    | .errored msg => .error msg
    | .skipped => process_series s rest
    | .matched t => (process_series s rest).map fun ts => t :: ts

/-! ## Transfer client (`euphierr/clients/base.py`, `euphierr/clients/qbt.py`,
`euphierr/qbt.py` — both `add_and_wait` bodies are line-for-line identical) -/

/-- The exception hierarchy of `euphierr/exceptions.py` that the transfer path
raises: `ArcNCielInvalidTorrentURL` and `ArcNCielInvalidTorrentTooManyFiles`
are subclasses of the generic `ArcNCielInvalidTorrentError` (here
`invalidTorrent` with its message). `unknownError` stands for any other
Python exception reaching the job boundary. -/
inductive ArcError
  | invalidTorrentURL (url : String)
  | invalidTorrentTooManyFiles (url : String)
  | invalidTorrent (msg : String)
  | unknownError (msg : String)
deriving Repr, DecidableEq

/-- Result of `torf.Torrent.read_stream` when it does not raise: the
descriptor's payload file list and infohash. -/
structure ParsedTorrent where
  files : List String
  infohash : String
deriving Repr, DecidableEq

/-- The `try` block of `download_torrent`: `read_stream` (a `none` argument
models the parse raising), the file-count check raising
`ArcNCielInvalidTorrentTooManyFiles`, and on success the infohash. -/
def download_torrent_read (url : String) (parsed : Option ParsedTorrent) :
    Except ArcError String :=
  match parsed with
  | none => .error (.unknownError ("read_stream failed: " ++ url))
  | some t =>
    if t.files.length > 1 then .error (.invalidTorrentTooManyFiles url)
    else .ok t.infohash

/-- `EuphieClient.download_torrent`: a non-200 fetch raises
`ArcNCielInvalidTorrentURL`; any exception escaping the `try` block — the
parse failure, but also the `ArcNCielInvalidTorrentTooManyFiles` just raised
inside it — is caught by the blanket `except Exception` and re-raised as the
generic `ArcNCielInvalidTorrentError("Failed to read torrent: ...")`.
Arguments `status`/`parsed` are the observed fetch status and parse outcome;
the result is the infohash (the raw bytes are not modelled). -/
def download_torrent (url : String) (status : Int) (parsed : Option ParsedTorrent) :
    Except ArcError String :=
  if status ≠ 200 then .error (.invalidTorrentURL url)
  else
    match download_torrent_read url parsed with
    | .error _ => .error (.invalidTorrent ("Failed to read torrent: " ++ url))
    | .ok infohash => .ok infohash

/-- Summary of one `torrents_info` listing's `state_enum` as `add_and_wait`
reads it: errored, complete, or still active. -/
inductive TorrentState
  | errored
  | completed
  | active
deriving Repr, DecidableEq

/-- Terminal outcome of the polling loop of `add_and_wait`. `pending` means
the supplied poll trace ended while the Python loop would still be polling. -/
inductive WaitOutcome
  | completed
  | disappeared
  | errored
  | pending
deriving Repr, DecidableEq

/-- The `while not is_downloaded` loop of `add_and_wait`, driven by the trace
of `_list_torrents` results (`none` = the client no longer lists the job).
`missing_failure` is the consecutive-missing counter: a missing poll
increments it and fails with the "disappeared" error once it exceeds 5; any
successful listing resets it to zero before the errored/complete checks. -/
def add_wait_loop (missing_failure : Nat) : List (Option TorrentState) → WaitOutcome
  | [] => .pending
  | poll :: rest =>
    match poll with
    | none =>
      if missing_failure + 1 > 5 then .disappeared
      else add_wait_loop (missing_failure + 1) rest
    | some st =>
      if st = .errored then .errored
      else if st = .completed then .completed
      else add_wait_loop 0 rest

/-- The observed behavior of the external world during one `add_and_wait`
call: the `.torrent` fetch status and parse outcome, the `torrents_add`
outcome (`.error ()` models `UnsupportedMediaType415Error`, `.ok b` whether
the response contained "ok"), the poll trace, and the completed payload's
save directory and file name. -/
structure ClientEnv where
  fetch_status : Int
  parsed : Option ParsedTorrent
  add_result : Except Unit Bool
  polls : List (Option TorrentState)
  save_path : String
  file_name : String

/-- `EuphieClient.add_and_wait`: download the descriptor, add it (an
unsupported-format rejection raises `ArcNCielInvalidTorrentURL`, a non-"ok"
response the generic add failure), attach the infohash, then poll to
completion. `none` models the loop still polling when the trace ends. -/
def add_and_wait (t : ArcNCielTorrent) (env : ClientEnv) :
    Option (Except ArcError (ArcNCielTorrent × String)) :=
  match download_torrent t.url env.fetch_status env.parsed with
  | .error e => some (.error e)
  | .ok tor_hash =>
    match env.add_result with
    | .error _ => some (.error (.invalidTorrentURL t.url))
    | .ok add_ok =>
      if add_ok then
        let t' := { t with hash := some tor_hash }
        match add_wait_loop 0 env.polls with
        | .completed => some (.ok (t', env.save_path ++ "/" ++ env.file_name))
        | .disappeared =>
          some (.error (.invalidTorrent ("Torrent disappeared: " ++ t.name ++ " (" ++ t.url ++ ")")))
        | .errored =>
          some (.error (.invalidTorrent ("Torrent errored: " ++ t.name ++ " (" ++ t.url ++ ")")))
        | .pending => none
      else some (.error (.invalidTorrent ("Failed to add torrent: " ++ t.name ++ " (" ++ t.url ++ ")")))

/-! ## Run coordinator (`main.py`) -/

/-- `_wrapped_downloader_and_move`: takes the outcome of
`client.add_and_wait` and of the mkdir+rename handoff (`move_ok`), and never
raises — the `except ArcNCielInvalidTorrentError` / `except Exception` arms
both return `(torrent, None, False)`; the success arm returns the source save
path and `True`. -/
def wrapped_downloader_and_move (t : ArcNCielTorrent)
    (res : Except ArcError (ArcNCielTorrent × String)) (move_ok : Bool) :
    ArcNCielTorrent × Option String × Bool :=
  match res with
  | .error _ => (t, none, false)
  | .ok (t', save_dir) =>
    if move_ok then (t', some save_dir, true) else (t', none, false)

/-- The dedup filter of `_run_feed` (lines 59–64): a candidate survives iff
its episode is not listed under the season key
`str(feed.season or series.season)`. `downloaded` models the mapping returned
by `get_downloaded_series` (absent `euphierr/management.py`), read only via
`.get(key, [])`. -/
def dedup_filter (downloaded : String → List Int) (series_season : Int)
    (feeds : List ArcNCielTorrent) : List ArcNCielTorrent :=
  feeds.filter fun f => !(downloaded (toString (pyIntOr f.season series_season))).contains f.episode

/-- The minimum-episode floor filter of `_run_feed` (line 65), exactly as
written: `not skip_start_check and feed.episode >= series.start_from`. -/
def start_filter (skip_start_check : Bool) (start_from : Int)
    (feeds : List ArcNCielTorrent) : List ArcNCielTorrent :=
  feeds.filter fun f => !skip_start_check && decide (f.episode ≥ start_from)

/-- The ledger commit loop of `_run_feed` (lines 81–83): append
`tor.to_data_content(svpath.suffix)` for exactly the gathered results with
`res` true and a present save path, onto the series' existing contents. -/
def commit_results (contents : List DataContent)
    (results : List (ArcNCielTorrent × Option String × Bool)) : List DataContent :=
  results.foldl
    (fun acc r =>
      match r with
      | (tor, some svpath, true) => acc ++ [tor.to_data_content (path_suffix svpath)]
      | _ => acc)
    contents

/-! ## Airtime gate (`main.py`, `get_day_difference` / `should_check`) -/

/-- `get_day_difference` verbatim: `(week_air - week_ctime + 7) % 7`. -/
def get_day_difference (week_air week_ctime : Int) : Int :=
  (week_air - week_ctime + 7) % 7

/-- Seconds in a day / in a week, for the linear-time model. -/
def secondsPerDay : Int := 86400

/-- Seconds in a week. -/
def secondsPerWeek : Int := 604800

/-- The hour/minute/second pulled from the airtime by `should_check`: zero for
a plain `date`, the airtime's own fields for a `datetime`. -/
def airtime_tod (a : AirtimeSpec) : Int :=
  (if a.isDatetime then a.hour else 0) * 3600 +
    (if a.isDatetime then a.minute else 0) * 60 +
    (if a.isDatetime then a.second else 0)

/-- The day-shift step of `should_check`: advance `now` by the weekday delta
(the negative branch mirrors `current_time.subtract(days=time_diff)`, though
it is unreachable since the delta is a non-negative remainder). -/
def projected_day_shift (a : AirtimeSpec) (now : Int) : Int :=
  let time_diff := get_day_difference a.weekday ((now / secondsPerDay) % 7)
  if time_diff > 0 then now + time_diff * secondsPerDay
  else if time_diff < 0 then now - time_diff * secondsPerDay
  else now

/-- The `airtime` value `should_check` constructs: the start of the shifted
day plus the airtime's time of day. -/
def projected_airtime (a : AirtimeSpec) (now : Int) : Int :=
  (projected_day_shift a now / secondsPerDay) * secondsPerDay + airtime_tod a

/-- The guard of the unreachable `elif time_diff < 0` branch of
`should_check`. -/
def should_check_rolls_backward (a : AirtimeSpec) (now : Int) : Bool :=
  decide (get_day_difference a.weekday ((now / secondsPerDay) % 7) < 0)

/-- The airtime-window body of `should_check`: the inclusive grace window
around the projected airtime, and on a miss the same window shifted seven
days back. `grace_period` is in minutes. -/
def should_check_airtime (a : AirtimeSpec) (grace_period : Int) (now : Int) : Bool :=
  let airtime := projected_airtime a now
  let diff_back := airtime - grace_period * 60
  let diff_future := airtime + grace_period * 60
  if diff_back ≤ now ∧ now ≤ diff_future then true
  else decide (diff_back - 7 * secondsPerDay ≤ now ∧ now ≤ diff_future - 7 * secondsPerDay)

/-- `should_check`: always true for a rule without an airtime, otherwise the
grace-window test. -/
def should_check (s : SeriesSeason) (now : Int) : Bool :=
  match s.airtime with
  | some a => should_check_airtime a s.grace_period now
  | none => true

/-! ## Concrete fixtures used by counterexamples and witnesses -/

/-- A candidate for episode 5, season 1 — above any floor of 1. -/
def torrentEp5 : ArcNCielTorrent :=
  { name := "Show - 05 [1080p]", url := "u5", hash := none,
    seriesId := "show", episode := 5, season := 1 }

/-- A candidate that resolved an explicit season-0 capture (a specials
episode), episode 5. -/
def torrentS0E5 : ArcNCielTorrent :=
  { name := "Show S00E05", url := "u05", hash := none,
    seriesId := "show", episode := 5, season := 0 }

/-- A ledger mapping that already records episode 5 under season key "0". -/
def downloadedZero : String → List Int :=
  fun k => if k = "0" then [5] else []

/-- An abstract extraction pattern: captures a non-numeric `episode` for one
title and a numeric one for another. -/
def regexShow : String → Option MatchGroups := fun title =>
  if title = "Show - abc [1080p]" then some { episode := some "abc", season := none }
  else if title = "Show - 07 [1080p]" then some { episode := some "07", season := none }
  else none

/-- A rule with no inclusion or exclusion substrings, default season 1. -/
def seriesShow : SeriesSeason :=
  { id := "show", episode_regex := regexShow, matchers := [], ignore_matchers := [],
    season := 1, start_from := 0, airtime := none, grace_period := 120 }

/-- An entry whose `episode` capture is non-numeric. -/
def entryBad : FeedEntry := { title := "Show - abc [1080p]", link := "l1", nyaa_infohash := none }

/-- An entry whose `episode` capture is the numeric "07". -/
def entryGood : FeedEntry := { title := "Show - 07 [1080p]", link := "l2", nyaa_infohash := none }

/-- The candidate `process_series` builds from `entryGood`. -/
def torrentGood : ArcNCielTorrent :=
  { name := "Show - 07 [1080p]", url := "l2", hash := none,
    seriesId := "show", episode := 7, season := 1 }

/-- A parsed descriptor with a single payload file. -/
def oneFileTorrent : ParsedTorrent := { files := ["f.mkv"], infohash := "h" }

/-- A parsed descriptor with two payload files. -/
def twoFileTorrent : ParsedTorrent := { files := ["a.mkv", "b.mkv"], infohash := "h" }

/-- A client environment whose `torrents_add` call raises the
unsupported-media-type rejection, after a successful descriptor fetch. -/
def envAddRejected : ClientEnv :=
  { fetch_status := 200, parsed := some oneFileTorrent, add_result := .error (),
    polls := [], save_path := "/tmp/x", file_name := "f.mkv" }

/-- An airtime of Monday 20:00:00 (weekday 0). -/
def airtimeMon20 : AirtimeSpec :=
  { isDatetime := true, weekday := 0, hour := 20, minute := 0, second := 0 }

/-! ## Helper lemmas -/

theorem commit_results_append (c : List DataContent)
    (xs ys : List (ArcNCielTorrent × Option String × Bool)) :
    commit_results c (xs ++ ys) = commit_results (commit_results c xs) ys := by
  simp [commit_results, List.foldl_append]

theorem commit_results_failed_cons (c : List DataContent) (t0 : ArcNCielTorrent)
    (p : Option String) (rs : List (ArcNCielTorrent × Option String × Bool)) :
    commit_results c ((t0, p, false) :: rs) = commit_results c rs := by
  cases p <;> rfl

theorem commit_results_success_cons (c : List DataContent) (t1 : ArcNCielTorrent)
    (pth : String) (rs : List (ArcNCielTorrent × Option String × Bool)) :
    commit_results c ((t1, some pth, true) :: rs) =
      commit_results (c ++ [t1.to_data_content (path_suffix pth)]) rs := rfl

theorem commit_results_skip_failed (c : List DataContent)
    (rs1 rs2 : List (ArcNCielTorrent × Option String × Bool))
    (t0 : ArcNCielTorrent) (p : Option String) :
    commit_results c (rs1 ++ (t0, p, false) :: rs2) = commit_results c (rs1 ++ rs2) := by
  rw [commit_results_append, commit_results_failed_cons, ← commit_results_append]

theorem get_day_difference_bounds (a b : Int) :
    0 ≤ get_day_difference a b ∧ get_day_difference a b < 7 := by
  unfold get_day_difference
  omega

theorem projected_airtime_linear (a : AirtimeSpec) (now : Int) :
    projected_airtime a now =
      (now / 86400 + (a.weekday - (now / 86400) % 7 + 7) % 7) * 86400 + airtime_tod a := by
  simp only [projected_airtime, projected_day_shift, get_day_difference, secondsPerDay]
  split_ifs with h1 h2 <;> omega

theorem should_check_airtime_iff (a : AirtimeSpec) (G t : Int) :
    should_check_airtime a G t = true ↔
      (projected_airtime a t - G * 60 ≤ t ∧ t ≤ projected_airtime a t + G * 60) ∨
      (projected_airtime a t - secondsPerWeek - G * 60 ≤ t ∧
        t ≤ projected_airtime a t - secondsPerWeek + G * 60) := by
  simp only [should_check_airtime, secondsPerWeek, secondsPerDay]
  split_ifs with h
  · simp only [true_iff]
    exact Or.inl h
  · rw [decide_eq_true_eq]
    constructor
    · intro hc
      right
      constructor <;> omega
    · rintro (hw | hw)
      · exact absurd hw h
      · constructor <;> omega

/-! ## Claim theorems -/

/-- Claim C1 (code-bug evaluation): the floor filter of `_run_feed` is
`not skip_start_check and feed.episode >= series.start_from`, so with the
bypass flag set it excludes every candidate — the surviving episode-5
candidate is not scheduled (first two conjuncts), although with the flag
unset it keeps exactly the candidates at or above the floor (third
conjunct, the half of the claim the code does satisfy). -/
theorem c1_skip_start_check_drops_all :
    start_filter true 1 [torrentEp5] = [] ∧
    (∀ (start_from : Int) (fs : List ArcNCielTorrent),
      start_filter true start_from fs = []) ∧
    (∀ (start_from : Int) (fs : List ArcNCielTorrent),
      start_filter false start_from fs = fs.filter fun f => decide (f.episode ≥ start_from)) := by
  refine ⟨rfl, ?_, ?_⟩ <;> intro start_from fs <;> simp [start_filter]

/-- Claim C3: in the polling loop of `add_and_wait`, five consecutive missing
listings followed by a complete listing still succeed; a sixth consecutive
missing listing fails with the "disappeared" error; and any successful
listing resets the consecutive-missing counter to zero. -/
theorem c3_missing_poll_budget :
    (∀ rest, add_wait_loop 0
        (List.replicate 5 none ++ some TorrentState.completed :: rest) = .completed) ∧
    (∀ rest, add_wait_loop 0 (List.replicate 6 none ++ rest) = .disappeared) ∧
    (∀ (m : Nat) rest, add_wait_loop m (some TorrentState.active :: rest) = add_wait_loop 0 rest) := by
  refine ⟨fun rest => rfl, fun rest => rfl, fun m rest => rfl⟩

/-- Claim C5 counterexample: a candidate that resolved an explicit season-0
capture whose episode 5 is already recorded under its resolved season "0" is
nonetheless scheduled, because `str(feed.season or series.season)` falls back
to the default season on the falsy resolved season 0 — the claim's
"eligible iff episode not in the set for its resolved season, with fallback
exactly when no override was given" is false here. -/
theorem c5_season_zero_counterexample :
    (downloadedZero (toString torrentS0E5.season)).contains torrentS0E5.episode = true ∧
    dedup_filter downloadedZero 1 [torrentS0E5] = [torrentS0E5] := by
  exact ⟨by decide, by decide⟩

/-- Claim C5 (amended): a candidate is scheduled iff its episode number is
not in the ledger set for the lookup season, where the lookup season falls
back to the series' default exactly when the candidate's resolved season is 0
(Python integer falsiness) — not exactly when no override was given. -/
theorem c5_dedup_filter_amended (downloaded : String → List Int) (series_season : Int)
    (fs : List ArcNCielTorrent) (f : ArcNCielTorrent) :
    f ∈ dedup_filter downloaded series_season fs ↔
      f ∈ fs ∧
        (downloaded (toString (if f.season = 0 then series_season else f.season))).contains
            f.episode = false := by
  simp [dedup_filter, pyIntOr, List.mem_filter]

/-- Claim C6: a failed mkdir/rename after a completed download makes the
wrapper return the failure triple `(torrent, None, False)`, and any gathered
result with `res = False` contributes nothing to the series' ledger
contents. -/
theorem c6_move_failure_not_recorded :
    (∀ (t t' : ArcNCielTorrent) (save_dir : String),
      wrapped_downloader_and_move t (.ok (t', save_dir)) false = (t', none, false)) ∧
    (∀ (contents : List DataContent) (rs1 rs2 : List (ArcNCielTorrent × Option String × Bool))
        (t0 : ArcNCielTorrent) (p : Option String),
      commit_results contents (rs1 ++ (t0, p, false) :: rs2) =
        commit_results contents (rs1 ++ rs2)) := by
  exact ⟨fun t t' save_dir => rfl, fun c rs1 rs2 t0 p => commit_results_skip_failed c rs1 rs2 t0 p⟩

/-- Claim C7 (code-bug evaluation): a non-200 fetch fails immediately with
the distinct invalid-URL error and an unparseable descriptor with the generic
read error, but a two-file descriptor — for which the `try` block does raise
the distinct `ArcNCielInvalidTorrentTooManyFiles` — is reported with the same
generic "Failed to read torrent" classification, because the blanket
`except Exception` swallows the distinct exception. -/
theorem c7_too_many_files_masked :
    download_torrent "u" 404 (some oneFileTorrent) = .error (.invalidTorrentURL "u") ∧
    download_torrent "u" 200 none = .error (.invalidTorrent "Failed to read torrent: u") ∧
    download_torrent_read "u" (some twoFileTorrent) =
      .error (.invalidTorrentTooManyFiles "u") ∧
    download_torrent "u" 200 (some twoFileTorrent) =
      .error (.invalidTorrent "Failed to read torrent: u") ∧
    download_torrent "u" 200 (some twoFileTorrent) ≠
      .error (.invalidTorrentTooManyFiles "u") := by
  refine ⟨by decide, by decide, by decide, by decide, by decide⟩

/-- Claim C9: an `add` call rejected with the unsupported-media-type error
makes that job's `add_and_wait` fail with the transfer-client invalid-URL
error (first conjunct); the wrapper converts any job error into the failure
triple without raising (second conjunct); a failed job contributes nothing to
the ledger commit while the surrounding results are unaffected (third
conjunct); and a successful sibling is still committed (fourth conjunct). -/
theorem c9_job_failure_isolated :
    (∀ (t : ArcNCielTorrent) (env : ClientEnv) (h : String),
      download_torrent t.url env.fetch_status env.parsed = .ok h →
      env.add_result = .error () →
      add_and_wait t env = some (.error (.invalidTorrentURL t.url))) ∧
    (∀ (t : ArcNCielTorrent) (e : ArcError) (move_ok : Bool),
      wrapped_downloader_and_move t (.error e) move_ok = (t, none, false)) ∧
    (∀ (contents : List DataContent) (rs1 rs2 : List (ArcNCielTorrent × Option String × Bool))
        (t0 : ArcNCielTorrent) (p : Option String),
      commit_results contents (rs1 ++ (t0, p, false) :: rs2) =
        commit_results contents (rs1 ++ rs2)) ∧
    (∀ (contents : List DataContent) (t1 : ArcNCielTorrent) (pth : String)
        (rs : List (ArcNCielTorrent × Option String × Bool)),
      commit_results contents ((t1, some pth, true) :: rs) =
        commit_results (contents ++ [t1.to_data_content (path_suffix pth)]) rs) := by
  refine ⟨?_, fun t e mv => rfl, fun c rs1 rs2 t0 p => commit_results_skip_failed c rs1 rs2 t0 p,
    fun c t1 pth rs => rfl⟩
  intro t env h hdl hadd
  simp [add_and_wait, hdl, hadd]

/-- Witness for C9: the concrete rejected-add environment, with the fetch
hypothesis discharged by evaluation. -/
theorem c9_job_failure_isolated_witness :
    add_and_wait torrentEp5 envAddRejected =
      some (.error (.invalidTorrentURL torrentEp5.url)) :=
  c9_job_failure_isolated.1 torrentEp5 envAddRejected "h" (by decide) rfl

/-- Claim C2: the matcher rejects an entry (skips it, producing no candidate
and no error) iff the title fails the extraction pattern, or some exclusion
substring occurs in it, or some required inclusion substring is absent — and
with an empty inclusion list, every entry that passes the pattern and the
exclusions is admitted (not rejected by the matching rules). -/
theorem c2_matcher_rejects_iff (s : SeriesSeason) (e : FeedEntry) :
    (process_entry s e = .skipped ↔
      s.episode_regex e.title = none ∨ has_ignore_match s e.title = true ∨
        missing_required_match s e.title = true) ∧
    (s.matchers = [] → s.episode_regex e.title ≠ none →
      has_ignore_match s e.title = false → process_entry s e ≠ .skipped) := by
  constructor
  · cases hre : s.episode_regex e.title with
    | none => simp [process_entry, hre]
    | some g =>
      cases hig : has_ignore_match s e.title with
      | true => simp [process_entry, hre, hig]
      | false =>
        cases hmm : missing_required_match s e.title with
        | true => simp [process_entry, hre, hig, hmm]
        | false =>
          cases hpe : pyInt g.episode with
          | none => simp [process_entry, hre, hig, hmm, hpe]
          | some ep =>
            cases hse : resolve_season s g with
            | none => simp [process_entry, hre, hig, hmm, hpe, hse]
            | some sn => simp [process_entry, hre, hig, hmm, hpe, hse]
  · intro hm hre hig
    have hmm : missing_required_match s e.title = false := by
      simp [missing_required_match, hm]
    cases hre' : s.episode_regex e.title with
    | none => exact absurd hre' hre
    | some g =>
      cases hpe : pyInt g.episode with
      | none => simp [process_entry, hre', hig, hmm, hpe]
      | some ep =>
        cases hse : resolve_season s g with
        | none => simp [process_entry, hre', hig, hmm, hpe, hse]
        | some sn => simp [process_entry, hre', hig, hmm, hpe, hse]

/-- Witness for C2: the empty-inclusion rule admits the concrete numeric
entry, with all hypotheses discharged at `seriesShow` / `entryGood`. -/
theorem c2_matcher_rejects_iff_witness :
    process_entry seriesShow entryGood ≠ .skipped :=
  (c2_matcher_rejects_iff seriesShow entryGood).2 rfl (by decide) (by decide)

/-- Claim C8 counterexample: `entryBad` passes the pattern, the exclusions
and the inclusions, yet its non-numeric `episode` capture makes the whole
per-series matching step raise (`Except.error`) instead of skipping the entry
with a warning, so the remaining good entry is never returned. -/
theorem c8_nonnumeric_episode_counterexample :
    seriesShow.episode_regex entryBad.title ≠ none ∧
    has_ignore_match seriesShow entryBad.title = false ∧
    missing_required_match seriesShow entryBad.title = false ∧
    process_series seriesShow [entryBad, entryGood] =
      .error ("invalid episode literal: " ++ entryBad.title) ∧
    process_series seriesShow [entryBad, entryGood] ≠ .ok [torrentGood] ∧
    process_entry seriesShow entryGood = .matched torrentGood := by
  refine ⟨by decide, by decide, by decide, by decide, by decide, by decide⟩

/-- Claim C8 (amended): an entry whose `episode` capture is non-numeric (or
absent) makes `int(...)` raise, and the exception propagates out of the
per-series matching step — the entry is not skipped and the remaining entries
are not processed. -/
theorem c8_nonnumeric_episode_raises (s : SeriesSeason) (e : FeedEntry)
    (rest : List FeedEntry) (msg : String)
    (h : process_entry s e = .errored msg) :
    process_series s (e :: rest) = .error msg := by
  simp [process_series, h]

/-- Witness for C8: the amended theorem applied at the concrete non-numeric
entry. -/
theorem c8_nonnumeric_episode_raises_witness :
    process_series seriesShow (entryBad :: [entryGood]) =
      .error ("invalid episode literal: " ++ entryBad.title) :=
  c8_nonnumeric_episode_raises seriesShow entryBad [entryGood] _ (by decide)

/-- Claim C10: `get_day_difference` returns `(a - b + 7) % 7`, which is never
negative and below 7 (for all integer inputs, hence in particular for
weekdays 0..6); consequently the `elif time_diff < 0` roll-backward branch of
`should_check` is unreachable, and the day-shift step never moves to an
earlier day than the current one. -/
theorem c10_day_difference_never_negative :
    (∀ a b : Int, get_day_difference a b = (a - b + 7) % 7 ∧
      0 ≤ get_day_difference a b ∧ get_day_difference a b < 7) ∧
    (∀ (a : AirtimeSpec) (now : Int), should_check_rolls_backward a now = false) ∧
    (∀ (a : AirtimeSpec) (now : Int),
      now / secondsPerDay ≤ projected_day_shift a now / secondsPerDay) := by
  refine ⟨fun a b => ⟨rfl, get_day_difference_bounds a b⟩, ?_, ?_⟩
  · intro a now
    simp only [should_check_rolls_backward, get_day_difference,
      decide_eq_false_iff_not, not_lt]
    omega
  · intro a now
    simp only [projected_day_shift, get_day_difference, secondsPerDay]
    split_ifs with h1 h2 <;> omega

/-- Claim C4 counterexample: with a Monday 20:00 airtime, `1281600` is an
occurrence instant of the airtime (`T`), and with a grace period of `G = 5040`
minutes (3.5 days) `should_check` is true at `T - G - 1` minutes
(`1281600 - 5040*60 - 60`), where the claim requires false: the point just
outside the current-week window falls inside the week-back window once the
grace radius reaches half a week. -/
theorem c4_half_week_grace_counterexample :
    (1281600 : Int) % secondsPerDay = airtime_tod airtimeMon20 ∧
    ((1281600 : Int) / secondsPerDay) % 7 = airtimeMon20.weekday ∧
    (979140 : Int) = 1281600 - 5040 * 60 - 60 ∧
    should_check_airtime airtimeMon20 5040 979140 = true := by
  refine ⟨by decide, by decide, by decide, by decide⟩

/-- Claim C4 (amended): for a rule with airtime `a` and grace `G` minutes with
`G ≤ 5039` (grace radius under half a week; the default is 120), the gate is
true exactly when `now` lies in the inclusive window `[T - G, T + G]` around
the projected airtime `T` or in the same window one week earlier; `T` is the
nearest forward-or-current-week occurrence (same time of day, the rule's
weekday, within the next six days); and at any occurrence instant `P0` the
gate is true at the inclusive endpoints `±G` minutes and false one minute
beyond them, for both the current-week and the week-back window. Without the
half-week bound the boundary half of the claim fails
(`c4_half_week_grace_counterexample`). -/
theorem c4_grace_window_amended (a : AirtimeSpec) (G now P0 : Int)
    (hw0 : 0 ≤ a.weekday) (hw7 : a.weekday < 7)
    (hG0 : 0 ≤ G) (hGhalf : G ≤ 5039)
    (hP0tod : P0 % secondsPerDay = airtime_tod a)
    (hP0w : (P0 / secondsPerDay) % 7 = a.weekday) :
    (should_check_airtime a G now = true ↔
      (projected_airtime a now - G * 60 ≤ now ∧ now ≤ projected_airtime a now + G * 60) ∨
      (projected_airtime a now - secondsPerWeek - G * 60 ≤ now ∧
        now ≤ projected_airtime a now - secondsPerWeek + G * 60)) ∧
    (now / secondsPerDay ≤ projected_airtime a now / secondsPerDay ∧
      projected_airtime a now / secondsPerDay ≤ now / secondsPerDay + 6 ∧
      (projected_airtime a now / secondsPerDay) % 7 = a.weekday ∧
      projected_airtime a now % secondsPerDay = airtime_tod a) ∧
    should_check_airtime a G (P0 - G * 60) = true ∧
    should_check_airtime a G (P0 + G * 60) = true ∧
    should_check_airtime a G (P0 - G * 60 - 60) = false ∧
    should_check_airtime a G (P0 + G * 60 + 60) = false ∧
    should_check_airtime a G (P0 - secondsPerWeek - G * 60) = true ∧
    should_check_airtime a G (P0 - secondsPerWeek + G * 60) = true ∧
    should_check_airtime a G (P0 - secondsPerWeek - G * 60 - 60) = false ∧
    should_check_airtime a G (P0 - secondsPerWeek + G * 60 + 60) = false := by
  simp only [secondsPerDay, secondsPerWeek] at hP0tod hP0w ⊢
  have htod : 0 ≤ airtime_tod a ∧ airtime_tod a < 86400 := by omega
  refine ⟨?_, ?_, ?_, ?_, ?_, ?_, ?_, ?_, ?_, ?_⟩
  · have h := should_check_airtime_iff a G now
    simp only [secondsPerWeek, secondsPerDay] at h
    exact h
  · rw [projected_airtime_linear a now]
    omega
  · have h := should_check_airtime_iff a G (P0 - G * 60)
    rw [projected_airtime_linear] at h
    simp only [secondsPerWeek, secondsPerDay] at h
    rw [h]
    omega
  · have h := should_check_airtime_iff a G (P0 + G * 60)
    rw [projected_airtime_linear] at h
    simp only [secondsPerWeek, secondsPerDay] at h
    rw [h]
    omega
  · have h := should_check_airtime_iff a G (P0 - G * 60 - 60)
    rw [projected_airtime_linear] at h
    simp only [secondsPerWeek, secondsPerDay] at h
    rw [Bool.eq_false_iff, Ne, h]
    omega
  · have h := should_check_airtime_iff a G (P0 + G * 60 + 60)
    rw [projected_airtime_linear] at h
    simp only [secondsPerWeek, secondsPerDay] at h
    rw [Bool.eq_false_iff, Ne, h]
    omega
  · have h := should_check_airtime_iff a G (P0 - 604800 - G * 60)
    rw [projected_airtime_linear] at h
    simp only [secondsPerWeek, secondsPerDay] at h
    rw [h]
    omega
  · have h := should_check_airtime_iff a G (P0 - 604800 + G * 60)
    rw [projected_airtime_linear] at h
    simp only [secondsPerWeek, secondsPerDay] at h
    rw [h]
    omega
  · have h := should_check_airtime_iff a G (P0 - 604800 - G * 60 - 60)
    rw [projected_airtime_linear] at h
    simp only [secondsPerWeek, secondsPerDay] at h
    rw [Bool.eq_false_iff, Ne, h]
    omega
  · have h := should_check_airtime_iff a G (P0 - 604800 + G * 60 + 60)
    rw [projected_airtime_linear] at h
    simp only [secondsPerWeek, secondsPerDay] at h
    rw [Bool.eq_false_iff, Ne, h]
    omega

/-- Witness for C4: the Monday 20:00 airtime with the default 120-minute
grace, at its occurrence `1281600`: the gate is true at the inclusive lower
window edge. -/
theorem c4_grace_window_amended_witness :
    should_check_airtime airtimeMon20 120 (1281600 - 120 * 60) = true :=
  (c4_grace_window_amended airtimeMon20 120 1281600 1281600 (by decide) (by decide)
    (by decide) (by decide) (by decide) (by decide)).2.2.1

end EuphieRR
